import Mathlib

/-!
Shallow embedding of the kpr-od backend (Express + Supabase glue layer).

The data store is modelled as explicit lists of rows; every `.single()`
query is modelled by `singleWhere` (exactly-one-match, otherwise the
PGRST116 store error); JS `Date` values after midnight normalization are
modelled as `Option Int` day numbers, where `none` models an Invalid Date
(all components NaN, so every `<` comparison is false).
-/

namespace KprOd

/-- Verified JWT claims attached to a request (`req.user`): subject id and
email, plus the department the admin authorizer may attach. -/
structure Claims where
  sub : String
  email : String
  department : Option String
deriving DecidableEq

/-- A row of the `admin_whitelist` table: email (key) and optional
department scoping. -/
structure WhitelistEntry where
  email : String
  department : Option String
deriving DecidableEq

/-- A data-store error: Supabase error code and message. -/
structure StoreErr where
  code : String
  message : String
deriving DecidableEq

/-- The "row not found" signal a `.single()` query yields when it does not
match exactly one row. -/
def pgrst116 : StoreErr :=
  { code := "PGRST116", message := "JSON object requested, multiple (or no) rows returned" }

/-- Model of a `select ... .eq(...) .single()` chain over a table: ok with
the row when exactly one row matches, otherwise the PGRST116 error. -/
def singleWhere {α : Type} (p : α → Bool) (rows : List α) : Except StoreErr α :=
  match rows.filter p with
  | [r] => .ok r
  | _ => .error pgrst116

/-- The `data` field of a `.single()` query when the error is ignored
(`const { data: admin } = ...`): `none` on any non-single match. -/
def singleOpt {α : Type} (p : α → Bool) (rows : List α) : Option α :=
  (singleWhere p rows).toOption

/-- The whitelist lookup both the authorizer and the profile/history
handlers perform: `.from('admin_whitelist').eq('email', email).single()`. -/
def adminLookup (wl : List WhitelistEntry) (email : String) : Option WhitelistEntry :=
  singleOpt (fun e => e.email == email) wl

/-- Outcome of the `authorize` middleware: pass control to the handler with
the (possibly updated) claims, or answer 403 with a message. -/
inductive AuthResult where
  | next (user : Claims)
  | forbidden (msg : String)
deriving DecidableEq

/-- The `authorize(role)` middleware of src/unnamed/part_000 lines 37-69:
looks the claim email up in the admin whitelist; for role `admin` it
requires membership (attaching the matched department), for role `user` it
requires non-membership plus the `@kpriet.ac.in` email suffix, and for any
other role it falls through to `next()`. -/
def authorize (role : String) (wl : List WhitelistEntry) (u : Claims) : AuthResult :=
  let admin := adminLookup wl u.email
  let isAdmin := admin.isSome
  if role = "admin" then
    match admin with
    | some a => .next { u with department := a.department }
    | none => .forbidden "Admin access required"
  else if role = "user" then
    if !isAdmin && u.email.endsWith "@kpriet.ac.in" then .next u
    else .forbidden "User access required (KPRIET domain)"
  else .next u

/-- JS `<` between two (midnight-normalized) Date values: a numeric
timestamp comparison, false whenever either side is an Invalid Date
(NaN compares false against everything). -/
def jsDateLt (a b : Option Int) : Bool :=
  match a, b with
  | some x, some y => decide (x < y)
  | _, _ => false

/-- A row of `year_period_timings` (year, period_number composite key). -/
structure Timing where
  year : Nat
  period_number : Nat
deriving DecidableEq

/-- The result record `validatePeriods` returns. -/
structure ValidationResult where
  valid : Bool
  errorMsg : Option String
deriving DecidableEq

/-- `validatePeriods` of src/unnamed/part_000 lines 73-94: rethrows a
timings-fetch error, then rejects a (normalized) request date strictly
earlier than today and accepts everything else; the fetched timing rows
are never consulted. `timingsFetch` is the outcome of the
`year_period_timings` query, `reqDate` the parsed+normalized request date
(`none` = Invalid Date), `nowDate` today's local midnight. -/
def validatePeriods (timingsFetch : Except StoreErr (List Timing))
    (reqDate : Option Int) (nowDate : Int) : Except StoreErr ValidationResult :=
  match timingsFetch with
  | .error e => .error e
  | .ok _timings =>
    if jsDateLt reqDate (some nowDate) then
      .ok { valid := false, errorMsg := some "Cannot apply for OD on past dates." }
    else
      .ok { valid := true, errorMsg := none }

/-- A row of the `od_requests` table. -/
structure ODRow where
  id : String
  user_id : String
  year : Nat
  periods : List Nat
  date : Option Int
  department : String
  od_category : String
  reg_number : String
  status : String
  remarks : Option String
  reviewed_by : Option String
  reviewed_at : Option String
  submitted_at : Nat
deriving DecidableEq

/-- A row of the `users` table. -/
structure UserRow where
  id : String
  name : String
  email : String
  department : String
  year : Nat
deriving DecidableEq

/-- Per-status / per-department / per-category aggregation the summary
endpoint computes. -/
structure SummaryStats where
  total : Nat
  approved : Nat
  pending : Nat
  rejected : Nat
  deptDistribution : List (String × Nat)
  categoryUsage : List (String × Nat)
deriving DecidableEq

/-- A projected CSV row of the export endpoint. -/
structure ExportRow where
  reg_number : String
  department : String
  year : Nat
  od_category : String
  date : Option Int
  status : String
deriving DecidableEq

/-- A JSON payload of a handler response. -/
inductive Payload where
  | empty
  | errMsg (msg : String)
  | userRow (r : UserRow)
  | odRow (r : ODRow)
  | stats (s : SummaryStats)
  | export (rs : List ExportRow)
deriving DecidableEq

/-- An HTTP response: status code and payload. -/
structure Resp where
  status : Nat
  payload : Payload
deriving DecidableEq

/-- A data-store operation a handler performs, for tracking which store
calls a request reaches. -/
inductive StoreOp where
  | readTimings (year : Nat) (periods : List Nat)
  | insertOd (row : ODRow)
  | updateOd (id : String)
deriving DecidableEq

/-- The create-request body `{user_id, year, periods, date, ...}`; `date`
holds the parsed+normalized request date (`none` = unparseable string). -/
structure CreateBody where
  user_id : String
  year : Nat
  periods : List Nat
  date : Option Int
  department : String
  od_category : String
  reg_number : String
deriving DecidableEq

/-- Row the store creates for an inserted body. The store assigns `id` and
`submitted_at`. Modelled from the spec: the `od_requests` schema lives
outside this repository and defaults `status` to `pending`; the handler
itself never sets status. -/
def insertRow (body : CreateBody) (newId : String) (submittedAt : Nat) : ODRow :=
  { id := newId, user_id := body.user_id, year := body.year, periods := body.periods,
    date := body.date, department := body.department, od_category := body.od_category,
    reg_number := body.reg_number, status := "pending", remarks := none,
    reviewed_by := none, reviewed_at := none, submitted_at := submittedAt }

/-- The `POST /api/od/request` handler (src/unnamed/part_000 lines
167-194), after `authenticate` and `authorize('user')` have passed:
rejects a body whose `user_id` differs from the authenticated subject
before any store call, then runs `validatePeriods` (its timings read is
the first store operation), answers 400 on invalid, and otherwise inserts
one row and answers 201 with it. Returns the new table, the store
operations performed, and the response. -/
def createOdHandler (db : List ODRow) (timingsFetch : Except StoreErr (List Timing))
    (body : CreateBody) (u : Claims) (today : Int) (newId : String) (submittedAt : Nat) :
    List ODRow × List StoreOp × Resp :=
  if body.user_id ≠ u.sub then
    (db, [], ⟨403, .errMsg "User ID mismatch"⟩)
  else
    match validatePeriods timingsFetch body.date today with
    | .error e => (db, [.readTimings body.year body.periods], ⟨500, .errMsg e.message⟩)
    | .ok v =>
      if v.valid then
        let row := insertRow body newId submittedAt
        (db ++ [row], [.readTimings body.year body.periods, .insertOd row],
         ⟨201, .odRow row⟩)
      else
        (db, [.readTimings body.year body.periods],
         ⟨400, .errMsg (v.errorMsg.getD "")⟩)

/-- The `{status, remarks, reviewedBy}` body of a review call. -/
structure ReviewBody where
  status : String
  remarks : Option String
  reviewedBy : String
deriving DecidableEq

/-- The update a review applies to a matched row: overwrites status,
remarks, reviewer id and review time. -/
def applyReview (r : ODRow) (b : ReviewBody) (nowIso : String) : ODRow :=
  { r with status := b.status, remarks := b.remarks,
           reviewed_by := some b.reviewedBy, reviewed_at := some nowIso }

/-- Response translation shared by the error branch of the review update:
any store failure becomes a 500 with the raw message (no 404 mapping). -/
def reviewTranslate (result : Except StoreErr ODRow) : Resp :=
  match result with
  | .error e => ⟨500, .errMsg e.message⟩
  | .ok row => ⟨200, .odRow row⟩

/-- The `PUT /api/od/review/:id` handler (src/unnamed/part_000 lines
239-265), after `authenticate` and `authorize('admin')` have passed:
rejects a body whose `reviewedBy` differs from the authenticated admin
before any store call, then updates every row matching the id (no status
precondition) and answers with the `.single()` result. -/
def reviewHandler (db : List ODRow) (reqId : String) (body : ReviewBody)
    (u : Claims) (nowIso : String) : List ODRow × List StoreOp × Resp :=
  if body.reviewedBy ≠ u.sub then
    (db, [], ⟨403, .errMsg "Reviewer ID mismatch"⟩)
  else
    let updated := db.map (fun r => if r.id == reqId then applyReview r body nowIso else r)
    (updated, [.updateOd reqId],
     reviewTranslate (singleWhere (fun r => r.id == reqId) updated))

/-- Response translation of the `users` single-row fetch: the PGRST116
row-not-found signal becomes 404 "User not found", any other store failure
a 500 with the raw message. -/
def getUserTranslate (result : Except StoreErr UserRow) : Resp :=
  match result with
  | .error e =>
      if e.code = "PGRST116" then ⟨404, .errMsg "User not found"⟩
      else ⟨500, .errMsg e.message⟩
  | .ok row => ⟨200, .userRow row⟩

/-- The `GET /api/user/:id` handler (src/unnamed/part_000 lines 117-141),
after `authenticate`: a caller whose subject differs from the target id
must appear in the admin whitelist, otherwise 403 "Unauthorized"; then the
single-row fetch result is translated. -/
def getUserHandler (wl : List WhitelistEntry) (users : List UserRow)
    (u : Claims) (targetId : String) : Resp :=
  if u.sub ≠ targetId then
    match adminLookup wl u.email with
    | none => ⟨403, .errMsg "Unauthorized"⟩
    | some _ => getUserTranslate (singleWhere (fun r => r.id == targetId) users)
  else
    getUserTranslate (singleWhere (fun r => r.id == targetId) users)

/-- Upsert on the `users` table keyed by id: replace the existing row or
append a new one. -/
def upsertById (users : List UserRow) (body : UserRow) : List UserRow :=
  if users.any (fun r => r.id == body.id) then
    users.map (fun r => if r.id == body.id then body else r)
  else
    users ++ [body]

/-- The `POST /api/user` handler (src/unnamed/part_000 lines 143-165),
after `authenticate`: the body id must equal the authenticated subject
(no admin exception), otherwise 403 "Cannot update other users"; then the
row is upserted and echoed back with 200. -/
def postUserHandler (users : List UserRow) (u : Claims) (body : UserRow) :
    List UserRow × Resp :=
  if u.sub ≠ body.id then
    (users, ⟨403, .errMsg "Cannot update other users"⟩)
  else
    (upsertById users body, ⟨200, .userRow body⟩)

/-- The department filter the summary and pending handlers apply:
`if (req.user.department) query = query.eq('department', ...)` — a JS
truthiness test, so a missing or empty department means no filtering. -/
def scopeByDept (dept : Option String) (db : List ODRow) : List ODRow :=
  match dept with
  | some d => if d ≠ "" then db.filter (fun r => r.department == d) else db
  | none => db

/-- One step of the JS `stats.m[k] = (stats.m[k] || 0) + 1` accumulation
over an object modelled as an insertion-ordered association list. -/
def incKey : List (String × Nat) → String → List (String × Nat)
  | [], k => [(k, 1)]
  | (q, v) :: rest, k => if q == k then (q, v + 1) :: rest else (q, v) :: incKey rest k

/-- The aggregation of `GET /api/reports/summary` over the fetched rows. -/
def computeStats (rows : List ODRow) : SummaryStats :=
  { total := rows.length
    approved := (rows.filter (fun r => r.status == "approved")).length
    pending := (rows.filter (fun r => r.status == "pending")).length
    rejected := (rows.filter (fun r => r.status == "rejected")).length
    deptDistribution := rows.foldl (fun m r => incKey m r.department) []
    categoryUsage := rows.foldl (fun m r => incKey m r.od_category) [] }

/-- The `GET /api/reports/summary` handler (src/unnamed/part_000 lines
267-301), after `authenticate` and `authorize('admin')`: fetches rows
scoped by the admin's department (when truthy) and answers the stats. -/
def summaryHandler (db : List ODRow) (u : Claims) : Resp :=
  ⟨200, .stats (computeStats (scopeByDept u.department db))⟩

/-- Projection of an `od_requests` row onto the exported CSV columns. -/
def projectExport (r : ODRow) : ExportRow :=
  ⟨r.reg_number, r.department, r.year, r.od_category, r.date, r.status⟩

/-- The rows `GET /api/reports/export` serializes: every `od_requests` row
ordered by `submitted_at` descending — no department filter is applied. -/
def exportRows (db : List ODRow) : List ExportRow :=
  (db.insertionSort (fun a b => b.submitted_at ≤ a.submitted_at)).map projectExport

/-- The `GET /api/reports/export` handler (src/unnamed/part_000 lines
303-321), after `authenticate` and `authorize('admin')`: the admin's
claims are available but never consulted. -/
def exportHandler (db : List ODRow) (_u : Claims) : Resp :=
  ⟨200, .export (exportRows db)⟩

-- ## Theorems

/-- Reduction of the admin branch of the authorizer. -/
theorem authorize_admin_eq (wl : List WhitelistEntry) (u : Claims) :
    authorize "admin" wl u =
      (match adminLookup wl u.email with
       | some a => .next { u with department := a.department }
       | none => .forbidden "Admin access required") := by
  unfold authorize
  rfl

/-- Reduction of the user branch of the authorizer. -/
theorem authorize_user_eq (wl : List WhitelistEntry) (u : Claims) :
    authorize "user" wl u =
      (if !(adminLookup wl u.email).isSome && u.email.endsWith "@kpriet.ac.in" then .next u
       else .forbidden "User access required (KPRIET domain)") := by
  unfold authorize
  rfl

/-- C1: `authorize('admin')` succeeds iff the email matches a whitelist
entry, attaching the matched department on success and answering 403
"Admin access required" on failure; `authorize('user')` succeeds iff the
email is NOT in the whitelist AND ends with the trusted institutional
domain, answering 403 otherwise. -/
theorem authorize_roles_spec (wl : List WhitelistEntry) (u : Claims) :
    (∀ a, adminLookup wl u.email = some a →
        authorize "admin" wl u = .next { u with department := a.department }) ∧
    (adminLookup wl u.email = none →
        authorize "admin" wl u = .forbidden "Admin access required") ∧
    ((∃ v, authorize "admin" wl u = .next v) ↔ (adminLookup wl u.email).isSome = true) ∧
    (authorize "user" wl u = .next u ↔
        ((adminLookup wl u.email).isSome = false ∧ u.email.endsWith "@kpriet.ac.in" = true)) ∧
    (¬((adminLookup wl u.email).isSome = false ∧ u.email.endsWith "@kpriet.ac.in" = true) →
        authorize "user" wl u = .forbidden "User access required (KPRIET domain)") := by
  refine ⟨?_, ?_, ?_, ?_, ?_⟩
  · intro a ha
    rw [authorize_admin_eq, ha]
  · intro ha
    rw [authorize_admin_eq, ha]
  · rw [authorize_admin_eq]
    cases h : adminLookup wl u.email <;> simp
  · rw [authorize_user_eq]
    cases h : (adminLookup wl u.email).isSome <;>
      cases hE : u.email.endsWith "@kpriet.ac.in" <;> simp [h, hE]
  · rw [authorize_user_eq]
    intro hn
    cases h : (adminLookup wl u.email).isSome <;>
      cases hE : u.email.endsWith "@kpriet.ac.in" <;> simp_all

/-- Witness for C1 at a concrete whitelist and identity. -/
theorem authorize_roles_spec_witness :
    authorize "admin" [⟨"hod@kpriet.ac.in", some "CSE"⟩] ⟨"u1", "hod@kpriet.ac.in", none⟩ =
      .next ⟨"u1", "hod@kpriet.ac.in", some "CSE"⟩ :=
  (authorize_roles_spec [⟨"hod@kpriet.ac.in", some "CSE"⟩] ⟨"u1", "hod@kpriet.ac.in", none⟩).1
    ⟨"hod@kpriet.ac.in", some "CSE"⟩ (by decide)

/-- C10: for any role tag other than `admin` and `user`, the authorize
middleware falls through to `next()` unconditionally, never producing a
403, whatever the whitelist holds. -/
theorem authorize_other_role_next (role : String) (wl : List WhitelistEntry) (u : Claims)
    (h1 : role ≠ "admin") (h2 : role ≠ "user") :
    authorize role wl u = .next u := by
  unfold authorize
  simp [h1, h2]

/-- Witness for C10: a made-up role tag passes any identity through. -/
theorem authorize_other_role_next_witness :
    authorize "superuser" [⟨"x@y", none⟩] ⟨"s1", "x@y", none⟩ = .next ⟨"s1", "x@y", none⟩ :=
  authorize_other_role_next "superuser" [⟨"x@y", none⟩] ⟨"s1", "x@y", none⟩
    (by decide) (by decide)

/-- C4: with the request and current dates normalized to midnight, a
request date strictly before today is rejected with 400 and a date at or
after today is accepted; the outcome and the inserted data never depend on
which timing rows the fetch returned. -/
theorem create_date_validation (db : List ODRow) (ts ts2 : List Timing)
    (body : CreateBody) (u : Claims) (today : Int) (newId : String) (subAt : Nat)
    (hid : body.user_id = u.sub) :
    createOdHandler db (.ok ts) body u today newId subAt =
      createOdHandler db (.ok ts2) body u today newId subAt ∧
    (∀ d, body.date = some d → d < today →
      createOdHandler db (.ok ts) body u today newId subAt =
        (db, [.readTimings body.year body.periods],
         ⟨400, .errMsg "Cannot apply for OD on past dates."⟩)) ∧
    (∀ d, body.date = some d → today ≤ d →
      createOdHandler db (.ok ts) body u today newId subAt =
        (db ++ [insertRow body newId subAt],
         [.readTimings body.year body.periods, .insertOd (insertRow body newId subAt)],
         ⟨201, .odRow (insertRow body newId subAt)⟩)) := by
  refine ⟨rfl, ?_, ?_⟩
  · intro d hd hlt
    simp [createOdHandler, validatePeriods, jsDateLt, hid, hd, hlt]
  · intro d hd hle
    simp [createOdHandler, validatePeriods, jsDateLt, hid, hd, not_lt.mpr hle]

/-- Witness for C4: a past date is rejected with 400 even though no timing
rows exist at all. -/
theorem create_date_validation_witness :
    createOdHandler [] (.ok []) ⟨"u1", 2, [1, 2], some 2, "CSE", "conf", "R1"⟩
        ⟨"u1", "stu@kpriet.ac.in", none⟩ 5 "id1" 9 =
      ([], [.readTimings 2 [1, 2]], ⟨400, .errMsg "Cannot apply for OD on past dates."⟩) :=
  ((create_date_validation [] [] [] ⟨"u1", 2, [1, 2], some 2, "CSE", "conf", "R1"⟩
      ⟨"u1", "stu@kpriet.ac.in", none⟩ 5 "id1" 9 rfl).2.1) 2 rfl (by decide)

/-- C9: an unparseable date string yields an Invalid Date, whose NaN
comparisons are all false, so `validatePeriods` answers valid and the
create handler accepts the request. -/
theorem validate_invalid_date_accepts (ts : List Timing) (nowDate : Int)
    (db : List ODRow) (body : CreateBody) (u : Claims) (newId : String) (subAt : Nat) :
    validatePeriods (.ok ts) none nowDate = .ok ⟨true, none⟩ ∧
    (body.user_id = u.sub → body.date = none →
      (createOdHandler db (.ok ts) body u nowDate newId subAt).2.2 =
        ⟨201, .odRow (insertRow body newId subAt)⟩) := by
  refine ⟨rfl, ?_⟩
  intro hid hd
  simp [createOdHandler, validatePeriods, jsDateLt, hid, hd]

/-- Witness for C9: a request whose date did not parse is accepted. -/
theorem validate_invalid_date_accepts_witness :
    validatePeriods (.ok []) none 5 = .ok ⟨true, none⟩ ∧
    (createOdHandler [] (.ok []) ⟨"u1", 2, [1], none, "CSE", "c1", "R1"⟩
        ⟨"u1", "stu@kpriet.ac.in", none⟩ 5 "id1" 9).2.2 =
      ⟨201, .odRow (insertRow ⟨"u1", 2, [1], none, "CSE", "c1", "R1"⟩ "id1" 9)⟩ :=
  ⟨(validate_invalid_date_accepts [] 5 [] ⟨"u1", 2, [1], none, "CSE", "c1", "R1"⟩
      ⟨"u1", "stu@kpriet.ac.in", none⟩ "id1" 9).1,
   (validate_invalid_date_accepts [] 5 [] ⟨"u1", 2, [1], none, "CSE", "c1", "R1"⟩
      ⟨"u1", "stu@kpriet.ac.in", none⟩ "id1" 9).2 rfl rfl⟩

/-- C5: a create request that passes the user_id check and date validation
inserts exactly one row, whose status is the store-side default `pending`,
and answers 201 with the created row. -/
theorem create_success_inserts_pending (db : List ODRow) (ts : List Timing)
    (body : CreateBody) (u : Claims) (today : Int) (newId : String) (subAt : Nat)
    (hid : body.user_id = u.sub)
    (hdate : jsDateLt body.date (some today) = false) :
    createOdHandler db (.ok ts) body u today newId subAt =
      (db ++ [insertRow body newId subAt],
       [.readTimings body.year body.periods, .insertOd (insertRow body newId subAt)],
       ⟨201, .odRow (insertRow body newId subAt)⟩) ∧
    (insertRow body newId subAt).status = "pending" := by
  refine ⟨?_, rfl⟩
  simp [createOdHandler, validatePeriods, hid, hdate]

/-- Witness for C5 at a concrete future-dated request. -/
theorem create_success_inserts_pending_witness :
    createOdHandler [] (.ok []) ⟨"u1", 2, [1, 2], some 9, "CSE", "conf", "R1"⟩
        ⟨"u1", "stu@kpriet.ac.in", none⟩ 5 "id1" 11 =
      ([insertRow ⟨"u1", 2, [1, 2], some 9, "CSE", "conf", "R1"⟩ "id1" 11],
       [.readTimings 2 [1, 2],
        .insertOd (insertRow ⟨"u1", 2, [1, 2], some 9, "CSE", "conf", "R1"⟩ "id1" 11)],
       ⟨201, .odRow (insertRow ⟨"u1", 2, [1, 2], some 9, "CSE", "conf", "R1"⟩ "id1" 11)⟩) ∧
    (insertRow ⟨"u1", 2, [1, 2], some 9, "CSE", "conf", "R1"⟩ "id1" 11).status = "pending" :=
  create_success_inserts_pending [] [] ⟨"u1", 2, [1, 2], some 9, "CSE", "conf", "R1"⟩
    ⟨"u1", "stu@kpriet.ac.in", none⟩ 5 "id1" 11 rfl (by decide)

/-- C3: a create body whose user_id differs from the subject, and a review
body whose reviewedBy differs from the admin, are answered 403 before any
store operation; dually, every inserted row carries the subject as
user_id and every row a successful review touched carries the admin as
reviewed_by. -/
theorem ownership_checks (db rdb : List ODRow) (tf : Except StoreErr (List Timing))
    (body : CreateBody) (u : Claims) (today : Int) (newId : String) (subAt : Nat)
    (reqId : String) (rbody : ReviewBody) (nowIso : String) :
    (body.user_id ≠ u.sub →
      createOdHandler db tf body u today newId subAt =
        (db, [], ⟨403, .errMsg "User ID mismatch"⟩)) ∧
    (rbody.reviewedBy ≠ u.sub →
      reviewHandler rdb reqId rbody u nowIso =
        (rdb, [], ⟨403, .errMsg "Reviewer ID mismatch"⟩)) ∧
    (∀ row, StoreOp.insertOd row ∈ (createOdHandler db tf body u today newId subAt).2.1 →
      row.user_id = u.sub) ∧
    (∀ r ∈ (reviewHandler rdb reqId rbody u nowIso).1, r.id = reqId →
      (reviewHandler rdb reqId rbody u nowIso).2.2.status = 200 →
      r.reviewed_by = some u.sub) := by
  refine ⟨?_, ?_, ?_, ?_⟩
  · intro h
    simp [createOdHandler, h]
  · intro h
    simp [reviewHandler, h]
  · intro row hrow
    by_cases hb : body.user_id = u.sub
    · cases hv : validatePeriods tf body.date today with
      | error e => simp [createOdHandler, hb, hv] at hrow
      | ok v =>
          cases hvv : v.valid with
          | false => simp [createOdHandler, hb, hv, hvv] at hrow
          | true =>
              simp [createOdHandler, hb, hv, hvv] at hrow
              rw [hrow, insertRow]
              exact hb
    · simp [createOdHandler, hb] at hrow
  · intro r hr hid hst
    by_cases hb : rbody.reviewedBy = u.sub
    · simp only [reviewHandler, hb, ne_eq, not_true_eq_false, if_false, ite_false] at hr
      rcases List.mem_map.1 hr with ⟨r0, _hr0, heq⟩
      cases h0 : r0.id == reqId with
      | true =>
          simp only [h0, if_true] at heq
          rw [← heq]
          simp [applyReview, hb]
      | false =>
          simp only [h0, Bool.false_eq_true, if_false] at heq
          rw [← heq] at hid
          simp only [beq_eq_false_iff_ne, ne_eq] at h0
          exact absurd hid h0
    · simp [reviewHandler, hb] at hst

/-- Witness for C3: a mismatched create body is rejected with no store
operation performed. -/
theorem ownership_checks_witness :
    createOdHandler [] (.ok []) ⟨"u2", 2, [1], some 7, "CSE", "c1", "R1"⟩
        ⟨"u1", "stu@kpriet.ac.in", none⟩ 5 "id1" 9 =
      ([], [], ⟨403, .errMsg "User ID mismatch"⟩) :=
  (ownership_checks [] [] (.ok []) ⟨"u2", 2, [1], some 7, "CSE", "c1", "R1"⟩
      ⟨"u1", "stu@kpriet.ac.in", none⟩ 5 "id1" 9 "r1" ⟨"approved", none, "a1"⟩ "t1").1
    (by decide)

/-- C2 counterexample: the review handler has no status precondition, so a
second review of an already-reviewed row changes its status again — the
row moves from pending to approved and then to rejected, the second call
answering 200. -/
theorem review_twice_changes_again :
    (reviewHandler
        [⟨"r1", "u1", 2, [1, 2], some 100, "CSE", "sym", "R1", "pending",
          none, none, none, 5⟩]
        "r1" ⟨"approved", none, "a1"⟩ ⟨"a1", "hod@kpriet.ac.in", some "CSE"⟩ "t1").1 =
      [⟨"r1", "u1", 2, [1, 2], some 100, "CSE", "sym", "R1", "approved",
        none, some "a1", some "t1", 5⟩] ∧
    (reviewHandler
        [⟨"r1", "u1", 2, [1, 2], some 100, "CSE", "sym", "R1", "approved",
          none, some "a1", some "t1", 5⟩]
        "r1" ⟨"rejected", some "not valid", "a1"⟩ ⟨"a1", "hod@kpriet.ac.in", some "CSE"⟩ "t2") =
      ([⟨"r1", "u1", 2, [1, 2], some 100, "CSE", "sym", "R1", "rejected",
         some "not valid", some "a1", some "t2", 5⟩],
       [.updateOd "r1"],
       ⟨200, .odRow ⟨"r1", "u1", 2, [1, 2], some 100, "CSE", "sym", "R1", "rejected",
         some "not valid", some "a1", some "t2", 5⟩⟩) := by
  decide

/-- C2 amended: the review transition overwrites status, remarks, reviewer
identity and review time unconditionally — whatever status a matched row
already has, after an authorized review it carries the body's status, so
a repeated review changes the row again (last write wins). -/
theorem review_overwrites_unconditionally (db : List ODRow) (reqId : String)
    (body : ReviewBody) (u : Claims) (nowIso : String)
    (hrv : body.reviewedBy = u.sub) :
    ∀ r ∈ (reviewHandler db reqId body u nowIso).1, r.id = reqId →
      r.status = body.status ∧ r.remarks = body.remarks ∧
      r.reviewed_by = some body.reviewedBy ∧ r.reviewed_at = some nowIso := by
  intro r hr hid
  simp only [reviewHandler, hrv, ne_eq, not_true_eq_false, if_false, ite_false] at hr
  rcases List.mem_map.1 hr with ⟨r0, _hr0, heq⟩
  cases h0 : r0.id == reqId with
  | true =>
      simp only [h0, if_true] at heq
      rw [← heq]
      simp [applyReview]
  | false =>
      simp only [h0, Bool.false_eq_true, if_false] at heq
      rw [← heq] at hid
      simp only [beq_eq_false_iff_ne, ne_eq] at h0
      exact absurd hid h0

/-- Witness for C2 amended: the overwritten row of a concrete re-review. -/
theorem review_overwrites_unconditionally_witness :
    (⟨"r1", "u1", 2, [1, 2], some 100, "CSE", "sym", "R1", "rejected",
      some "not valid", some "a1", some "t2", 5⟩ : ODRow).status = "rejected" ∧
    (⟨"r1", "u1", 2, [1, 2], some 100, "CSE", "sym", "R1", "rejected",
      some "not valid", some "a1", some "t2", 5⟩ : ODRow).remarks = some "not valid" ∧
    (⟨"r1", "u1", 2, [1, 2], some 100, "CSE", "sym", "R1", "rejected",
      some "not valid", some "a1", some "t2", 5⟩ : ODRow).reviewed_by = some "a1" ∧
    (⟨"r1", "u1", 2, [1, 2], some 100, "CSE", "sym", "R1", "rejected",
      some "not valid", some "a1", some "t2", 5⟩ : ODRow).reviewed_at = some "t2" :=
  review_overwrites_unconditionally
    [⟨"r1", "u1", 2, [1, 2], some 100, "CSE", "sym", "R1", "approved",
      none, some "a1", some "t1", 5⟩]
    "r1" ⟨"rejected", some "not valid", "a1"⟩ ⟨"a1", "hod@kpriet.ac.in", some "CSE"⟩ "t2" rfl
    ⟨"r1", "u1", 2, [1, 2], some 100, "CSE", "sym", "R1", "rejected",
      some "not valid", some "a1", some "t2", 5⟩
    (by decide) rfl

/-- C6 counterexample: the single-row update of the review handler maps the
row-not-found signal to 500, not 404 — reviewing a missing id answers 500
with the raw PGRST116 message. -/
theorem review_notfound_maps_500 :
    reviewHandler [] "r9" ⟨"approved", none, "a1"⟩
        ⟨"a1", "hod@kpriet.ac.in", some "CSE"⟩ "t1" =
      ([], [.updateOd "r9"],
       ⟨500, .errMsg "JSON object requested, multiple (or no) rows returned"⟩) ∧
    (reviewHandler [] "r9" ⟨"approved", none, "a1"⟩
        ⟨"a1", "hod@kpriet.ac.in", some "CSE"⟩ "t1").2.2.status ≠ 404 := by
  decide

/-- C6 amended: every store failure is answered 500 with the raw message,
except that the single-row profile fetch of GET /api/user/:id maps the
PGRST116 row-not-found signal to 404; the single-row update of the review
handler has no such mapping and answers 500 even for row-not-found. -/
theorem store_error_translation (e : StoreErr) :
    getUserTranslate (.error e) =
      (if e.code = "PGRST116" then ⟨404, .errMsg "User not found"⟩
       else ⟨500, .errMsg e.message⟩) ∧
    reviewTranslate (.error e) = ⟨500, .errMsg e.message⟩ ∧
    getUserTranslate (.error pgrst116) = ⟨404, .errMsg "User not found"⟩ ∧
    reviewTranslate (.error pgrst116) = ⟨500, .errMsg pgrst116.message⟩ :=
  ⟨rfl, rfl, rfl, rfl⟩

/-- C7 counterexample: with an admin scoped to department CSE, the summary
counts only the CSE row, but the export still carries the ECE row — the
export is not department-scoped. -/
theorem export_ignores_department :
    summaryHandler
        [⟨"r1", "u1", 2, [1], some 100, "CSE", "c1", "R1", "pending", none, none, none, 5⟩,
         ⟨"r2", "u2", 3, [2], some 100, "ECE", "c2", "R2", "approved", none, none, none, 7⟩]
        ⟨"a1", "hod@kpriet.ac.in", some "CSE"⟩ =
      ⟨200, .stats ⟨1, 0, 1, 0, [("CSE", 1)], [("c1", 1)]⟩⟩ ∧
    exportHandler
        [⟨"r1", "u1", 2, [1], some 100, "CSE", "c1", "R1", "pending", none, none, none, 5⟩,
         ⟨"r2", "u2", 3, [2], some 100, "ECE", "c2", "R2", "approved", none, none, none, 7⟩]
        ⟨"a1", "hod@kpriet.ac.in", some "CSE"⟩ =
      ⟨200, .export [⟨"R2", "ECE", 3, "c2", some 100, "approved"⟩,
                     ⟨"R1", "CSE", 2, "c1", some 100, "pending"⟩]⟩ ∧
    (⟨"R2", "ECE", 3, "c2", some 100, "approved"⟩ : ExportRow).department ≠ "CSE" := by
  decide

/-- C7 amended: the summary is department-scoped — a truthy admin
department restricts the counted rows to that department, and an absent
department covers all rows — while the export ignores the admin's claims
entirely and always covers every row. -/
theorem report_scoping (db : List ODRow) (u : Claims) :
    (∀ d, u.department = some d → d ≠ "" →
      ∀ r ∈ scopeByDept u.department db, r.department = d) ∧
    (u.department = none → scopeByDept u.department db = db) ∧
    summaryHandler db u = ⟨200, .stats (computeStats (scopeByDept u.department db))⟩ ∧
    (∀ v : Claims, exportHandler db v = exportHandler db u) ∧
    (∀ r ∈ db, projectExport r ∈ exportRows db) := by
  refine ⟨?_, ?_, rfl, fun v => rfl, ?_⟩
  · intro d hd hne r hr
    rw [hd] at hr
    simp [scopeByDept, hne] at hr
    exact hr.2
  · intro h
    rw [h, scopeByDept]
  · intro r hr
    exact List.mem_map_of_mem projectExport ((List.mem_insertionSort _).2 hr)

/-- Witness for C7 amended: an unscoped admin covers all rows and a row is
present in the export. -/
theorem report_scoping_witness :
    scopeByDept (Claims.department ⟨"a1", "h@kpriet.ac.in", none⟩)
      [⟨"r1", "u1", 2, [1], some 100, "CSE", "c1", "R1", "pending", none, none, none, 5⟩] =
      [⟨"r1", "u1", 2, [1], some 100, "CSE", "c1", "R1", "pending", none, none, none, 5⟩] ∧
    projectExport ⟨"r1", "u1", 2, [1], some 100, "CSE", "c1", "R1", "pending", none, none, none, 5⟩ ∈
      exportRows [⟨"r1", "u1", 2, [1], some 100, "CSE", "c1", "R1", "pending", none, none, none, 5⟩] :=
  ⟨(report_scoping
      [⟨"r1", "u1", 2, [1], some 100, "CSE", "c1", "R1", "pending", none, none, none, 5⟩]
      ⟨"a1", "h@kpriet.ac.in", none⟩).2.1 rfl,
   (report_scoping
      [⟨"r1", "u1", 2, [1], some 100, "CSE", "c1", "R1", "pending", none, none, none, 5⟩]
      ⟨"a1", "h@kpriet.ac.in", none⟩).2.2.2.2
     ⟨"r1", "u1", 2, [1], some 100, "CSE", "c1", "R1", "pending", none, none, none, 5⟩
     (by decide)⟩

/-- C8: the profile fetch answers the row only to the target user or a
whitelisted admin and 403 to everyone else; the profile write proceeds
only when the body id equals the authenticated subject — with no admin
exception — and answers 403 otherwise, leaving the table unchanged. -/
theorem profile_access_control (wl : List WhitelistEntry) (users usersW : List UserRow)
    (u : Claims) (targetId : String) (body : UserRow) :
    ((u.sub = targetId ∨ (adminLookup wl u.email).isSome = true) →
      getUserHandler wl users u targetId =
        getUserTranslate (singleWhere (fun r => r.id == targetId) users)) ∧
    (¬(u.sub = targetId ∨ (adminLookup wl u.email).isSome = true) →
      getUserHandler wl users u targetId = ⟨403, .errMsg "Unauthorized"⟩) ∧
    ((getUserHandler wl users u targetId).status = 200 →
      u.sub = targetId ∨ (adminLookup wl u.email).isSome = true) ∧
    (u.sub = body.id →
      postUserHandler usersW u body = (upsertById usersW body, ⟨200, .userRow body⟩)) ∧
    (u.sub ≠ body.id →
      postUserHandler usersW u body = (usersW, ⟨403, .errMsg "Cannot update other users"⟩)) := by
  have hget : getUserHandler wl users u targetId =
      (if u.sub = targetId ∨ (adminLookup wl u.email).isSome = true then
        getUserTranslate (singleWhere (fun r => r.id == targetId) users)
      else ⟨403, .errMsg "Unauthorized"⟩) := by
    by_cases hs : u.sub = targetId
    · simp [getUserHandler, hs]
    · cases ha : adminLookup wl u.email with
      | none => simp [getUserHandler, hs, ha]
      | some a => simp [getUserHandler, hs, ha]
  refine ⟨fun h => by rw [hget, if_pos h], fun h => by rw [hget, if_neg h], ?_, ?_, ?_⟩
  · intro h200
    by_contra hn
    rw [hget, if_neg hn] at h200
    simp at h200
  · intro h
    simp [postUserHandler, h]
  · intro h
    simp [postUserHandler, h]

/-- Witness for C8: a non-admin caller cannot write another user's row. -/
theorem profile_access_control_witness :
    postUserHandler [] ⟨"u1", "stu@kpriet.ac.in", none⟩ ⟨"u2", "Bob", "b@kpriet.ac.in", "CSE", 3⟩ =
      ([], ⟨403, .errMsg "Cannot update other users"⟩) :=
  (profile_access_control [] [] [] ⟨"u1", "stu@kpriet.ac.in", none⟩ "t1"
      ⟨"u2", "Bob", "b@kpriet.ac.in", "CSE", 3⟩).2.2.2.2 (by decide)

end KprOd
